import Mathlib

/-!
Verification of the Job Part Plan memory-map data model of
`ste/ste-mmf-models.go` (azure-storage-azcopy, service-transfer-engine layer).

Machine integers are embedded as `Nat` with an explicit `% 2 ^ 32` where the
source stores through a 32-bit word.  Byte arrays are embedded as `List Nat`.
The external packages `common` and `pipeline` are not part of the repository;
their value types (JobID, LocationType, LogLevel, TransferStatus codes) are
embedded as abstract numeric values.
-/

namespace ste

/-- Modulus of a 32-bit unsigned word, used by the atomic status accessors. -/
def uint32Mod : Nat := 2 ^ 32

/-- dataSchemaVersion defines the data schema version of JobPart order files
supported by the current version of azcopy (source line 13). -/
def dataSchemaVersion : Nat := 0

/-- JobStatusCode is a uint32 in the source; embedded as a Nat value. -/
abbrev JobStatusCode := Nat

/-- String returns the appropriate Job status in string form from the
respective status code (source lines 18-31). -/
def JobStatusCode.String (status : JobStatusCode) : String :=
  if status = 0 then "JobInProgress"
  else if status = 1 then "JobPaused"
  else if status = 2 then "JobCancelled"
  else if status = 3 then "JobCompleted"
  else "InvalidStatusCode"

/-- Job Part is currently executing (source line 35). -/
def JobInProgress : JobStatusCode := 0

/-- Job Part is currently paused (source line 38). -/
def JobPaused : JobStatusCode := 1

/-- Job Part is cancelled (source line 41). -/
def JobCancelled : JobStatusCode := 2

/-- Job Part has completed (source line 44). -/
def JobCompleted : JobStatusCode := 3

/-- JobPartPlanBlobData represents the optional attributes of a JobPart order
(source lines 77-90).  The fixed Go arrays [256]byte, [256]byte, [1000]byte
are embedded as byte lists; well-formed values keep them at the declared
capacities. -/
structure JobPartPlanBlobData where
  ContentTypeLength : Nat
  ContentType : List Nat
  ContentEncodingLength : Nat
  ContentEncoding : List Nat
  MetaDataLength : Nat
  MetaData : List Nat
  BlockSize : Nat
deriving DecidableEq

/-- JobPartPlanHeader represents the header of a Job Part memory-map file
(source lines 48-64).  JobID, LocationType and LogLevel come from external
packages and are embedded as abstract numeric values. -/
structure JobPartPlanHeader where
  Version : Nat
  Id : Nat
  PartNum : Nat
  IsFinalPart : Bool
  Priority : Nat
  TTLAfterCompletion : Nat
  SrcLocationType : Nat
  DstLocationType : Nat
  NumTransfers : Nat
  LogSeverity : Nat
  BlobData : JobPartPlanBlobData
  jobStatus : Nat
deriving DecidableEq

/-- getJobStatus returns the job status stored in the JobPartPlanHeader: an
atomic 32-bit load of the jobStatus field (source lines 67-69). -/
def getJobStatus (jPartPlanHeader : JobPartPlanHeader) : JobStatusCode :=
  jPartPlanHeader.jobStatus

/-- setJobStatus sets the job status in the JobPartPlanHeader: an atomic
32-bit store of the given status into the jobStatus field, with no other
effect and no validation (source lines 72-74). -/
def setJobStatus (jPartPlanHeader : JobPartPlanHeader) (status : JobStatusCode) :
    JobPartPlanHeader :=
  { jPartPlanHeader with jobStatus := status % uint32Mod }

/-- JobPartPlanTransfer represents one transfer record of a Job Part
memory-map file (source lines 93-110).  The transferStatus field holds a
common.TransferStatus, a 32-bit value embedded as a Nat. -/
structure JobPartPlanTransfer where
  Offset : Nat
  SrcLength : Nat
  DstLength : Nat
  ChunkNum : Nat
  ModifiedTime : Nat
  SourceSize : Nat
  CompletionTime : Nat
  transferStatus : Nat
deriving DecidableEq

/-- getTransferStatus returns the transfer status of the current transfer:
an atomic 32-bit load of the transferStatus field (source lines 113-115). -/
def getTransferStatus (jPartPlanTransfer : JobPartPlanTransfer) : Nat :=
  jPartPlanTransfer.transferStatus

/-- setTransferStatus sets the transfer status of the current transfer to the
given status: an atomic 32-bit store into the transferStatus field, with no
other effect and no validation (source lines 118-120). -/
def setTransferStatus (jPartPlanTransfer : JobPartPlanTransfer) (status : Nat) :
    JobPartPlanTransfer :=
  { jPartPlanTransfer with transferStatus := status % uint32Mod }

/-- High priority of a JobPartOrder (source line 125). -/
def HighJobPriority : Nat := 0

/-- Medium priority of a JobPartOrder (source line 126). -/
def MediumJobPriority : Nat := 1

/-- Low priority of a JobPartOrder (source line 127). -/
def LowJobPriority : Nat := 2

/-- The default priority of a JobPartOrder (source line 128). -/
def DefaultJobPriority : Nat := HighJobPriority

/-- Capacity of the ContentType buffer (source line 132). -/
def MAX_SIZE_CONTENT_TYPE : Nat := 256

/-- Capacity of the ContentEncoding buffer (source line 133). -/
def MAX_SIZE_CONTENT_ENCODING : Nat := 256

/-- Capacity of the MetaData buffer (source line 134). -/
def MAX_SIZE_META_DATA : Nat := 1000

/-- Modelled from the spec: the transfer status codes of common.TransferStatus
(InProgress, Failed, Completed).  The common package is not part of this
repository; only the names appear in the source comments, so the codes are
modelled as three distinct values. -/
def TransferInProgress : Nat := 0

/-- Modelled from the spec: the Failed transfer status code of
common.TransferStatus. -/
def TransferFailed : Nat := 1

/-- Modelled from the spec: the Completed transfer status code of
common.TransferStatus. -/
def TransferCompleted : Nat := 2

/-- Modelled from the spec: the error taxonomy of the plan-file layer
(SchemaVersionMismatch for a version mismatch at open, CorruptPlan for any
invariant violation). -/
inductive PlanError where
  | SchemaVersionMismatch : PlanError
  | CorruptPlan : PlanError
deriving DecidableEq

/-- Modelled from the spec: the three fixed scheduling queues that the
priority-channel model dispatches into. -/
inductive Channel where
  | High : Channel
  | Medium : Channel
  | Low : Channel
deriving DecidableEq

/-- Modelled from the spec: the priority-to-channel mapping, a pure total
function over the three defined priority values; any other stored value is a
CorruptPlan condition.  The dispatch code is not part of this repository. -/
def priorityToChannel (p : Nat) : Except PlanError Channel :=
  if p = 0 then Except.ok Channel.High
  else if p = 1 then Except.ok Channel.Medium
  else if p = 2 then Except.ok Channel.Low
  else Except.error PlanError.CorruptPlan

/-- Modelled from the spec: the blob-data block produced by the write-time
layout builder for the given content-type, content-encoding and metadata
bytes: each buffer is padded with zero bytes to its declared capacity and the
used length is recorded in the corresponding length field. -/
def blobDataOf (ct ce md : List Nat) (bs : Nat) : JobPartPlanBlobData :=
  { ContentTypeLength := ct.length
    ContentType := ct ++ List.replicate (MAX_SIZE_CONTENT_TYPE - ct.length) 0
    ContentEncodingLength := ce.length
    ContentEncoding := ce ++ List.replicate (MAX_SIZE_CONTENT_ENCODING - ce.length) 0
    MetaDataLength := md.length
    MetaData := md ++ List.replicate (MAX_SIZE_META_DATA - md.length) 0
    BlockSize := bs }

/-- Modelled from the spec: write-time construction of the blob-data block.
The construction code is not part of this repository; per the spec, length
values are validated against the buffer capacities at write (construction)
time, and a violation is a CorruptPlan condition. -/
def mkJobPartPlanBlobData (ct ce md : List Nat) (bs : Nat) :
    Except PlanError JobPartPlanBlobData :=
  if ct.length ≤ MAX_SIZE_CONTENT_TYPE ∧ ce.length ≤ MAX_SIZE_CONTENT_ENCODING ∧
      md.length ≤ MAX_SIZE_META_DATA then
    Except.ok (blobDataOf ct ce md bs)
  else
    Except.error PlanError.CorruptPlan

/-- Modelled from the spec: start offset of transfer record i (0-indexed) in
the plan-file layout, given the fixed header and record sizes. -/
def transferRecordStart (hdrSize recSize i : Nat) : Nat :=
  hdrSize + i * recSize

/-- Modelled from the spec: one-past-the-end offset of transfer record i in
the plan-file layout. -/
def transferRecordEnd (hdrSize recSize i : Nat) : Nat :=
  hdrSize + (i + 1) * recSize

/-- Modelled from the spec: start offset of the variable-length string pool,
immediately after the array of numTransfers transfer records. -/
def stringPoolStart (hdrSize recSize numTransfers : Nat) : Nat :=
  hdrSize + numTransfers * recSize

/-- Modelled from the spec: a plan file as mapped into memory, decoded into
its header, its transfer-record array and its total byte size. -/
structure PlanFile where
  header : JobPartPlanHeader
  transfers : List JobPartPlanTransfer
  fileSize : Nat
deriving DecidableEq

/-- Modelled from the spec: the bounds check of invariant 5 for one transfer
record: its Offset falls at or after the string-pool boundary and its source
and destination bytes fit within the total file size. -/
def transferInBounds (hdrSize recSize numRecords fileSize : Nat)
    (t : JobPartPlanTransfer) : Bool :=
  decide (stringPoolStart hdrSize recSize numRecords ≤ t.Offset) &&
  decide (t.Offset + t.SrcLength + t.DstLength ≤ fileSize)

/-- Modelled from the spec: the read API that opens a mapped plan file. It
validates the Version against dataSchemaVersion (any mismatch is a hard
SchemaVersionMismatch rejection before any field is exposed), then validates
invariants 6 (NumTransfers equals the number of records present) and 5
(record bounds); any violation is CorruptPlan, never a best-effort view. -/
def openPlanFile (hdrSize recSize : Nat) (f : PlanFile) :
    Except PlanError PlanFile :=
  if f.header.Version ≠ dataSchemaVersion then
    Except.error PlanError.SchemaVersionMismatch
  else if f.header.NumTransfers ≠ f.transfers.length then
    Except.error PlanError.CorruptPlan
  else if f.transfers.all (transferInBounds hdrSize recSize f.transfers.length f.fileSize) then
    Except.ok f
  else
    Except.error PlanError.CorruptPlan

/-- Modelled from the spec: the caller-contract legal job-status transition
relation of a single run: InProgress may move to Paused, Cancelled or
Completed, and Paused may return to InProgress; nothing else is legal. -/
def jobLegalStep (s t : Nat) : Prop :=
  (s = JobInProgress ∧ (t = JobPaused ∨ t = JobCancelled ∨ t = JobCompleted)) ∨
  (s = JobPaused ∧ t = JobInProgress)

/-- Modelled from the spec: the caller-contract legal transfer-status
transition relation: InProgress may move to Completed or Failed; nothing
else is legal. -/
def transferLegalStep (s t : Nat) : Prop :=
  s = TransferInProgress ∧ (t = TransferCompleted ∨ t = TransferFailed)

/-- A concrete blob-data block used to instantiate universally quantified
theorems at a specific input. -/
def sampleBlobData : JobPartPlanBlobData :=
  { ContentTypeLength := 0, ContentType := [], ContentEncodingLength := 0
    ContentEncoding := [], MetaDataLength := 0, MetaData := [], BlockSize := 0 }

/-- A concrete header used to instantiate universally quantified theorems at
a specific input. -/
def sampleHeader : JobPartPlanHeader :=
  { Version := 0, Id := 0, PartNum := 0, IsFinalPart := false, Priority := 0
    TTLAfterCompletion := 0, SrcLocationType := 0, DstLocationType := 0
    NumTransfers := 0, LogSeverity := 0, BlobData := sampleBlobData, jobStatus := 0 }

/-- A concrete transfer record used to instantiate universally quantified
theorems at a specific input. -/
def sampleTransfer : JobPartPlanTransfer :=
  { Offset := 0, SrcLength := 0, DstLength := 0, ChunkNum := 0, ModifiedTime := 0
    SourceSize := 0, CompletionTime := 0, transferStatus := 0 }

/-- A concrete plan file whose Version differs from dataSchemaVersion. -/
def sampleBadVersionFile : PlanFile :=
  { header := { sampleHeader with Version := 1 }, transfers := [], fileSize := 0 }

/-- A concrete transfer record whose string bytes lie inside the pool of the
sample well-formed plan file below. -/
def sampleGoodTransfer : JobPartPlanTransfer :=
  { Offset := 14, SrcLength := 2, DstLength := 3, ChunkNum := 0, ModifiedTime := 0
    SourceSize := 0, CompletionTime := 0, transferStatus := 0 }

/-- A concrete plan file that passes the open validation for header size 10
and record size 4. -/
def sampleGoodFile : PlanFile :=
  { header := { sampleHeader with NumTransfers := 1 }
    transfers := [sampleGoodTransfer], fileSize := 19 }

/-- C1: for every status value in the defined set, setJobStatus followed by
getJobStatus returns exactly that status, and setTransferStatus followed by
getTransferStatus returns exactly that status; both accessor pairs operate on
the 32-bit representation of the status field: the setter is a plain store of
the value (reduced modulo 2 ^ 32) into the status field and the getter is a
plain load of that field, with no read-modify-write. -/
theorem C1_status_accessor_roundtrip (h : JobPartPlanHeader)
    (t : JobPartPlanTransfer) (s : Nat)
    (hs : s = JobInProgress ∨ s = JobPaused ∨ s = JobCancelled ∨ s = JobCompleted) :
    getJobStatus (setJobStatus h s) = s ∧
    getTransferStatus (setTransferStatus t s) = s ∧
    (setJobStatus h s).jobStatus = s % uint32Mod ∧
    (setTransferStatus t s).transferStatus = s % uint32Mod ∧
    getJobStatus h = h.jobStatus ∧
    getTransferStatus t = t.transferStatus := by
  have hlt : s < uint32Mod := by
    rcases hs with h1 | h1 | h1 | h1 <;> subst h1 <;> decide
  refine ⟨?_, ?_, rfl, rfl, rfl, rfl⟩ <;>
    simp [getJobStatus, setJobStatus, getTransferStatus, setTransferStatus,
      Nat.mod_eq_of_lt hlt]

/-- Witness for C1 at the concrete status JobCancelled and concrete records. -/
theorem C1_status_accessor_roundtrip_witness :
    getJobStatus (setJobStatus sampleHeader 2) = 2 ∧
    getTransferStatus (setTransferStatus sampleTransfer 2) = 2 ∧
    (setJobStatus sampleHeader 2).jobStatus = 2 % uint32Mod ∧
    (setTransferStatus sampleTransfer 2).transferStatus = 2 % uint32Mod ∧
    getJobStatus sampleHeader = sampleHeader.jobStatus ∧
    getTransferStatus sampleTransfer = sampleTransfer.transferStatus :=
  C1_status_accessor_roundtrip sampleHeader sampleTransfer 2 (by decide)

/-- C2 counterexample: the rendering of status code 0 is the string
"JobInProgress", not the string "InProgress" the claim lists. -/
theorem C2_counterexample :
    JobStatusCode.String 0 = "JobInProgress" ∧
    ¬ JobStatusCode.String 0 = "InProgress" := by
  exact ⟨rfl, by decide⟩

/-- C2 (amended): the String rendering maps the four job status codes 0, 1,
2, 3 to "JobInProgress", "JobPaused", "JobCancelled" and "JobCompleted" (the
constant names, with the Job prefix), and for every other stored value it
returns the sentinel string "InvalidStatusCode" rather than failing. -/
theorem C2_string_rendering (v : Nat) (hv : 3 < v) :
    JobStatusCode.String JobInProgress = "JobInProgress" ∧
    JobStatusCode.String JobPaused = "JobPaused" ∧
    JobStatusCode.String JobCancelled = "JobCancelled" ∧
    JobStatusCode.String JobCompleted = "JobCompleted" ∧
    JobStatusCode.String v = "InvalidStatusCode" := by
  refine ⟨rfl, rfl, rfl, rfl, ?_⟩
  have h0 : ¬ (v = 0) := by omega
  have h1 : ¬ (v = 1) := by omega
  have h2 : ¬ (v = 2) := by omega
  have h3 : ¬ (v = 3) := by omega
  simp [JobStatusCode.String, h0, h1, h2, h3]

/-- Witness for C2 (amended) at the concrete out-of-range value 7. -/
theorem C2_string_rendering_witness :
    JobStatusCode.String JobInProgress = "JobInProgress" ∧
    JobStatusCode.String JobPaused = "JobPaused" ∧
    JobStatusCode.String JobCancelled = "JobCancelled" ∧
    JobStatusCode.String JobCompleted = "JobCompleted" ∧
    JobStatusCode.String 7 = "InvalidStatusCode" :=
  C2_string_rendering 7 (by decide)

/-- C7: the status setters have no side effect beyond the single status-word
write: setJobStatus leaves every other header field unchanged and
setTransferStatus leaves every other transfer field unchanged; both are total
functions that perform no validation of transition legality. -/
theorem C7_setter_frame (h : JobPartPlanHeader) (t : JobPartPlanTransfer)
    (s v : Nat) :
    (setJobStatus h s).Version = h.Version ∧
    (setJobStatus h s).Id = h.Id ∧
    (setJobStatus h s).PartNum = h.PartNum ∧
    (setJobStatus h s).IsFinalPart = h.IsFinalPart ∧
    (setJobStatus h s).Priority = h.Priority ∧
    (setJobStatus h s).TTLAfterCompletion = h.TTLAfterCompletion ∧
    (setJobStatus h s).SrcLocationType = h.SrcLocationType ∧
    (setJobStatus h s).DstLocationType = h.DstLocationType ∧
    (setJobStatus h s).NumTransfers = h.NumTransfers ∧
    (setJobStatus h s).LogSeverity = h.LogSeverity ∧
    (setJobStatus h s).BlobData = h.BlobData ∧
    (setTransferStatus t v).Offset = t.Offset ∧
    (setTransferStatus t v).SrcLength = t.SrcLength ∧
    (setTransferStatus t v).DstLength = t.DstLength ∧
    (setTransferStatus t v).ChunkNum = t.ChunkNum ∧
    (setTransferStatus t v).ModifiedTime = t.ModifiedTime ∧
    (setTransferStatus t v).SourceSize = t.SourceSize ∧
    (setTransferStatus t v).CompletionTime = t.CompletionTime :=
  ⟨rfl, rfl, rfl, rfl, rfl, rfl, rfl, rfl, rfl, rfl, rfl, rfl, rfl, rfl, rfl,
    rfl, rfl, rfl⟩

/-- C9: setTransferStatus never writes CompletionTime: for every transfer
record and every status argument, including the terminal statuses, the
CompletionTime field after the call equals its value before the call. -/
theorem C9_completion_time_preserved (t : JobPartPlanTransfer) (s : Nat) :
    (setTransferStatus t s).CompletionTime = t.CompletionTime := rfl

/-- C10: the status setters are total over all 32-bit values and never signal
an error: for every value below 2 ^ 32, including values outside the closed
status enumerations, the setter stores the value verbatim and the subsequent
getter returns it. -/
theorem C10_setters_total (h : JobPartPlanHeader) (t : JobPartPlanTransfer)
    (v : Nat) (hv : v < uint32Mod) :
    getJobStatus (setJobStatus h v) = v ∧
    getTransferStatus (setTransferStatus t v) = v := by
  simp [getJobStatus, setJobStatus, getTransferStatus, setTransferStatus,
    Nat.mod_eq_of_lt hv]

/-- Witness for C10 at the concrete out-of-enumeration value 99. -/
theorem C10_setters_total_witness :
    getJobStatus (setJobStatus sampleHeader 99) = 99 ∧
    getTransferStatus (setTransferStatus sampleTransfer 99) = 99 :=
  C10_setters_total sampleHeader sampleTransfer 99 (by decide)

/-- A status from which a relation allows no step is a fixed point of the
reflexive-transitive closure of that relation. -/
theorem fixed_of_no_step (r : Nat → Nat → Prop) (a : Nat)
    (hno : ∀ b, ¬ r a b) (t : Nat) (ht : Relation.ReflTransGen r a t) :
    t = a := by
  induction ht with
  | refl => rfl
  | tail hab hbc ih => exact absurd (ih ▸ hbc) (hno _)

/-- C3 counterexample: a transfer whose stored status is the terminal
Completed value is moved to InProgress by a further setTransferStatus call of
this very layer, so the setters themselves do not make terminal statuses
final. -/
theorem C3_counterexample :
    getTransferStatus (setTransferStatus
      (setTransferStatus sampleTransfer TransferCompleted) TransferInProgress) =
      TransferInProgress ∧
    TransferInProgress ≠ TransferCompleted := by decide

/-- C3 (amended): the setters perform no transition validation (they store
any value at any time), so the monotonicity is a property of the
caller-contract transition relation: under it, from job InProgress only
Paused, Cancelled or Completed are reachable in one step, Paused may only
return to InProgress, Cancelled and Completed have no outgoing transition and
are fixed under every legal sequence; from transfer InProgress only Completed
or Failed are reachable, and both are fixed under every legal sequence. -/
theorem C3_legal_transition_monotonicity (r : JobPartPlanTransfer) (s t : Nat) :
    ((setTransferStatus r s).transferStatus = s % uint32Mod) ∧
    (jobLegalStep JobInProgress t →
      t = JobPaused ∨ t = JobCancelled ∨ t = JobCompleted) ∧
    (jobLegalStep JobPaused t → t = JobInProgress) ∧
    ¬ jobLegalStep JobCancelled t ∧
    ¬ jobLegalStep JobCompleted t ∧
    (Relation.ReflTransGen jobLegalStep JobCancelled t → t = JobCancelled) ∧
    (Relation.ReflTransGen jobLegalStep JobCompleted t → t = JobCompleted) ∧
    (transferLegalStep TransferInProgress t →
      t = TransferCompleted ∨ t = TransferFailed) ∧
    ¬ transferLegalStep TransferCompleted t ∧
    ¬ transferLegalStep TransferFailed t ∧
    (Relation.ReflTransGen transferLegalStep TransferCompleted t →
      t = TransferCompleted) ∧
    (Relation.ReflTransGen transferLegalStep TransferFailed t →
      t = TransferFailed) := by
  have hjc : ∀ b, ¬ jobLegalStep JobCancelled b := by
    intro b hb
    simp [jobLegalStep, JobCancelled, JobInProgress, JobPaused] at hb
  have hjd : ∀ b, ¬ jobLegalStep JobCompleted b := by
    intro b hb
    simp [jobLegalStep, JobCompleted, JobInProgress, JobPaused] at hb
  have htc : ∀ b, ¬ transferLegalStep TransferCompleted b := by
    intro b hb
    simp [transferLegalStep, TransferCompleted, TransferInProgress] at hb
  have htf : ∀ b, ¬ transferLegalStep TransferFailed b := by
    intro b hb
    simp [transferLegalStep, TransferFailed, TransferInProgress] at hb
  refine ⟨rfl, ?_, ?_, hjc t, hjd t, fixed_of_no_step _ _ hjc t,
    fixed_of_no_step _ _ hjd t, ?_, htc t, htf t,
    fixed_of_no_step _ _ htc t, fixed_of_no_step _ _ htf t⟩
  · intro hstep
    rcases hstep with ⟨_, h2⟩ | ⟨h1, _⟩
    · exact h2
    · exact absurd h1 (by decide)
  · intro hstep
    rcases hstep with ⟨h1, _⟩ | ⟨_, h2⟩
    · exact absurd h1 (by decide)
    · exact h2
  · intro hstep
    exact hstep.2

/-- Witness for C3 (amended) at a concrete transfer record, the concrete
stored value 1 and the concrete status value 5. -/
theorem C3_legal_transition_monotonicity_witness :
    ((setTransferStatus sampleTransfer 1).transferStatus = 1 % uint32Mod) ∧
    (jobLegalStep JobInProgress 5 →
      5 = JobPaused ∨ 5 = JobCancelled ∨ 5 = JobCompleted) ∧
    (jobLegalStep JobPaused 5 → 5 = JobInProgress) ∧
    ¬ jobLegalStep JobCancelled 5 ∧
    ¬ jobLegalStep JobCompleted 5 ∧
    (Relation.ReflTransGen jobLegalStep JobCancelled 5 → 5 = JobCancelled) ∧
    (Relation.ReflTransGen jobLegalStep JobCompleted 5 → 5 = JobCompleted) ∧
    (transferLegalStep TransferInProgress 5 →
      5 = TransferCompleted ∨ 5 = TransferFailed) ∧
    ¬ transferLegalStep TransferCompleted 5 ∧
    ¬ transferLegalStep TransferFailed 5 ∧
    (Relation.ReflTransGen transferLegalStep TransferCompleted 5 →
      5 = TransferCompleted) ∧
    (Relation.ReflTransGen transferLegalStep TransferFailed 5 →
      5 = TransferFailed) :=
  C3_legal_transition_monotonicity sampleTransfer 1 5

/-- C4: opening a plan file whose Version differs from dataSchemaVersion is a
hard SchemaVersionMismatch rejection: the open operation fails before any
invariant of the file is examined and exposes no field. -/
theorem C4_version_mismatch_rejected (hdrSize recSize : Nat) (f : PlanFile)
    (hv : f.header.Version ≠ dataSchemaVersion) :
    openPlanFile hdrSize recSize f =
      Except.error PlanError.SchemaVersionMismatch := by
  unfold openPlanFile
  rw [if_pos hv]

/-- Witness for C4 at a concrete plan file carrying Version 1. -/
theorem C4_version_mismatch_rejected_witness :
    openPlanFile 10 4 sampleBadVersionFile =
      Except.error PlanError.SchemaVersionMismatch :=
  C4_version_mismatch_rejected 10 4 sampleBadVersionFile (by decide)

/-- C5: the priority constants are High=0, Medium=1, Low=2, the default
priority equals High, and the priority-to-channel mapping is a pure total
function sending exactly these three values to the three channels; every
other stored value is a CorruptPlan condition. -/
theorem C5_priority_channel (v : Nat) (hv : 2 < v) :
    HighJobPriority = 0 ∧ MediumJobPriority = 1 ∧ LowJobPriority = 2 ∧
    DefaultJobPriority = HighJobPriority ∧
    priorityToChannel HighJobPriority = Except.ok Channel.High ∧
    priorityToChannel MediumJobPriority = Except.ok Channel.Medium ∧
    priorityToChannel LowJobPriority = Except.ok Channel.Low ∧
    priorityToChannel v = Except.error PlanError.CorruptPlan := by
  refine ⟨rfl, rfl, rfl, rfl, rfl, rfl, rfl, ?_⟩
  have h0 : ¬ (v = 0) := by omega
  have h1 : ¬ (v = 1) := by omega
  have h2 : ¬ (v = 2) := by omega
  simp [priorityToChannel, h0, h1, h2]

/-- Witness for C5 at the concrete out-of-range priority value 3. -/
theorem C5_priority_channel_witness :
    HighJobPriority = 0 ∧ MediumJobPriority = 1 ∧ LowJobPriority = 2 ∧
    DefaultJobPriority = HighJobPriority ∧
    priorityToChannel HighJobPriority = Except.ok Channel.High ∧
    priorityToChannel MediumJobPriority = Except.ok Channel.Medium ∧
    priorityToChannel LowJobPriority = Except.ok Channel.Low ∧
    priorityToChannel 3 = Except.error PlanError.CorruptPlan :=
  C5_priority_channel 3 (by decide)

/-- C6: the fixed buffer capacities of JobPartPlanBlobData are ContentType
256 bytes, ContentEncoding 256 bytes and MetaData 1000 bytes, the exported
capacity constants equal these sizes, and the used lengths are validated at
write (construction) time: within-capacity inputs yield a block whose length
fields do not exceed the capacities and whose buffers have exactly the
capacity sizes, while an over-capacity input is rejected with CorruptPlan at
construction. -/
theorem C6_blob_capacities (ct ce md bad : List Nat) (bs : Nat)
    (h1 : ct.length ≤ MAX_SIZE_CONTENT_TYPE)
    (h2 : ce.length ≤ MAX_SIZE_CONTENT_ENCODING)
    (h3 : md.length ≤ MAX_SIZE_META_DATA)
    (hbad : MAX_SIZE_META_DATA < bad.length) :
    (MAX_SIZE_CONTENT_TYPE = 256 ∧ MAX_SIZE_CONTENT_ENCODING = 256 ∧
      MAX_SIZE_META_DATA = 1000) ∧
    mkJobPartPlanBlobData ct ce md bs = Except.ok (blobDataOf ct ce md bs) ∧
    (blobDataOf ct ce md bs).ContentTypeLength ≤ MAX_SIZE_CONTENT_TYPE ∧
    (blobDataOf ct ce md bs).ContentType.length = MAX_SIZE_CONTENT_TYPE ∧
    (blobDataOf ct ce md bs).ContentEncodingLength ≤ MAX_SIZE_CONTENT_ENCODING ∧
    (blobDataOf ct ce md bs).ContentEncoding.length = MAX_SIZE_CONTENT_ENCODING ∧
    (blobDataOf ct ce md bs).MetaDataLength ≤ MAX_SIZE_META_DATA ∧
    (blobDataOf ct ce md bs).MetaData.length = MAX_SIZE_META_DATA ∧
    mkJobPartPlanBlobData ct ce bad bs = Except.error PlanError.CorruptPlan := by
  refine ⟨⟨rfl, rfl, rfl⟩, ?_, h1, ?_, h2, ?_, h3, ?_, ?_⟩
  · unfold mkJobPartPlanBlobData
    rw [if_pos ⟨h1, h2, h3⟩]
  · simp [blobDataOf]
    omega
  · simp [blobDataOf]
    omega
  · simp [blobDataOf]
    omega
  · unfold mkJobPartPlanBlobData
    rw [if_neg]
    intro hc
    exact absurd hc.2.2 (by omega)

set_option maxRecDepth 4000 in
/-- Witness for C6 at concrete byte lists, with a 1001-byte metadata input as
the rejected over-capacity case. -/
theorem C6_blob_capacities_witness :
    (MAX_SIZE_CONTENT_TYPE = 256 ∧ MAX_SIZE_CONTENT_ENCODING = 256 ∧
      MAX_SIZE_META_DATA = 1000) ∧
    mkJobPartPlanBlobData [1] [] [2, 3] 4 =
      Except.ok (blobDataOf [1] [] [2, 3] 4) ∧
    (blobDataOf [1] [] [2, 3] 4).ContentTypeLength ≤ MAX_SIZE_CONTENT_TYPE ∧
    (blobDataOf [1] [] [2, 3] 4).ContentType.length = MAX_SIZE_CONTENT_TYPE ∧
    (blobDataOf [1] [] [2, 3] 4).ContentEncodingLength ≤ MAX_SIZE_CONTENT_ENCODING ∧
    (blobDataOf [1] [] [2, 3] 4).ContentEncoding.length = MAX_SIZE_CONTENT_ENCODING ∧
    (blobDataOf [1] [] [2, 3] 4).MetaDataLength ≤ MAX_SIZE_META_DATA ∧
    (blobDataOf [1] [] [2, 3] 4).MetaData.length = MAX_SIZE_META_DATA ∧
    mkJobPartPlanBlobData [1] [] (List.replicate 1001 0) 4 =
      Except.error PlanError.CorruptPlan :=
  C6_blob_capacities [1] [] [2, 3] (List.replicate 1001 0) 4
    (by decide) (by decide) (by decide) (by simp [MAX_SIZE_META_DATA])

/-- C8: in the plan-file layout, transfer record i occupies the half-open
byte range from hdrSize + i * recSize to hdrSize + (i + 1) * recSize, so
record 0 starts exactly where the header ends, consecutive records are
adjacent, and the string pool begins exactly where the record array ends; and
for every plan file accepted by the open validation, NumTransfers equals the
number of records present and every record's Offset lies at or after the pool
start with Offset + SrcLength + DstLength within the total file size. -/
theorem C8_plan_layout (hdrSize recSize n i : Nat) (f g : PlanFile)
    (t : JobPartPlanTransfer) (hn : 0 < n)
    (hok : openPlanFile hdrSize recSize f = Except.ok g)
    (ht : t ∈ f.transfers) :
    transferRecordStart hdrSize recSize 0 = hdrSize ∧
    transferRecordEnd hdrSize recSize i = transferRecordStart hdrSize recSize (i + 1) ∧
    transferRecordEnd hdrSize recSize (n - 1) = stringPoolStart hdrSize recSize n ∧
    f.header.NumTransfers = f.transfers.length ∧
    stringPoolStart hdrSize recSize f.transfers.length ≤ t.Offset ∧
    t.Offset + t.SrcLength + t.DstLength ≤ f.fileSize := by
  unfold openPlanFile at hok
  split_ifs at hok with hv hnum hall
  have heq : f.header.NumTransfers = f.transfers.length := not_not.mp hnum
  have hb := List.all_eq_true.mp hall t ht
  simp [transferInBounds] at hb
  have hsucc : n - 1 + 1 = n := Nat.succ_pred_eq_of_pos hn
  refine ⟨by simp [transferRecordStart], rfl, ?_, heq, hb.1, hb.2⟩
  unfold transferRecordEnd stringPoolStart
  rw [hsucc]

/-- Witness for C8 at a concrete well-formed one-record plan file with header
size 10, record size 4 and file size 19. -/
theorem C8_plan_layout_witness :
    transferRecordStart 10 4 0 = 10 ∧
    transferRecordEnd 10 4 0 = transferRecordStart 10 4 (0 + 1) ∧
    transferRecordEnd 10 4 (1 - 1) = stringPoolStart 10 4 1 ∧
    sampleGoodFile.header.NumTransfers = sampleGoodFile.transfers.length ∧
    stringPoolStart 10 4 sampleGoodFile.transfers.length ≤
      sampleGoodTransfer.Offset ∧
    sampleGoodTransfer.Offset + sampleGoodTransfer.SrcLength +
      sampleGoodTransfer.DstLength ≤ sampleGoodFile.fileSize :=
  C8_plan_layout 10 4 1 0 sampleGoodFile sampleGoodFile sampleGoodTransfer
    (by decide) (by rfl) (by decide)
